import Mathlib

/-!
Shallow embedding of `app2.py` (QR attendance, teacher-PIN variant) and proofs
about its slot management, submission handling, CSV store and admin actions.

Conventions of the embedding:
* Python strings are Lean `String`; `str.strip()` is `pyStrip`.
* Timestamps written by `now_iso_utc` are represented structurally by
  `DateTime`; a CSV cell is either such a well-formed instant or a raw string
  (the raw case models strings `datetime.fromisoformat` rejects).
* File contents are explicit state values threaded through each function;
  a write that the code guards with try/except gets a boolean oracle telling
  whether the guarded I/O raises.
-/

namespace QrAttendance

/-- A UTC instant at second precision, the information content of the strings
produced by `now_iso_utc` (app2.py line 30). -/
structure DateTime where
  year : Nat
  month : Nat
  day : Nat
  hour : Nat
  minute : Nat
  second : Nat
  deriving DecidableEq, Repr

/-- Whitespace for the purposes of Python `str.strip()`. -/
def isPySpace (c : Char) : Bool :=
  c = ' ' ∨ c = '\t' ∨ c = '\n' ∨ c = '\r'

/-- Python `str.strip()`: drop leading and trailing whitespace. (Defined over
the character list so that concrete instances reduce in the kernel.) -/
def pyStrip (s : String) : String :=
  ⟨(((s.data.dropWhile isPySpace).reverse).dropWhile isPySpace).reverse⟩

/-- Zero-padded two-digit rendering used by strftime fields. -/
def pad2 (n : Nat) : String :=
  if n < 10 then "0" ++ toString n else toString n

/-- Zero-padded four-digit rendering of the year field. -/
def pad4 (n : Nat) : String :=
  if n < 10 then "000" ++ toString n
  else if n < 100 then "00" ++ toString n
  else if n < 1000 then "0" ++ toString n
  else toString n

/-- The strftime pattern `%Y-%m-%d %H:%M:%S` applied in `now_local_str`
(app2.py line 36). -/
def strftimeSeconds (dt : DateTime) : String :=
  pad4 dt.year ++ "-" ++ pad2 dt.month ++ "-" ++ pad2 dt.day ++ " " ++
    pad2 dt.hour ++ ":" ++ pad2 dt.minute ++ ":" ++ pad2 dt.second

/-- The ISO `...Z` rendering produced by `now_iso_utc` (app2.py lines 30-31). -/
def now_iso_utc (dt : DateTime) : String :=
  pad4 dt.year ++ "-" ++ pad2 dt.month ++ "-" ++ pad2 dt.day ++ "T" ++
    pad2 dt.hour ++ ":" ++ pad2 dt.minute ++ ":" ++ pad2 dt.second ++ "Z"

/-- A CSV cell: a well-formed UTC instant (a string `now_local_str` parses) or
an arbitrary raw string (on which `datetime.fromisoformat` raises). -/
inductive Cell where
  | isoTs (dt : DateTime)
  | raw (s : String)
  deriving DecidableEq, Repr

/-- The string stored on disk for a cell. -/
def cellStr : Cell → String
  | .isoTs dt => now_iso_utc dt
  | .raw s => s

/-- Model of `now_local_str` (app2.py lines 33-38): reformat a parsable timestamp with
`%Y-%m-%d %H:%M:%S`; return unparsable input unchanged. -/
def now_local_str : Cell → String
  | .isoTs dt => strftimeSeconds dt
  | .raw s => s

/- ------------------------------------------------------------------
Slot state: `data/current_slot.json`
------------------------------------------------------------------ -/

/-- The JSON object persisted in the slot file. Absent keys are `none`. -/
structure SlotDoc where
  slot_key : Option String := none
  created : Option Int := none
  pin : Option String := none
  pin_set_at : Option Int := none
  deriving DecidableEq, Repr

/-- A parsed slot file: a JSON object, or a document `json.load` raises on.
(Non-object JSON behaves like `unparsable` in every claim proved here: it is
minted over by `ensure_current_slot` before any other reader runs.) -/
inductive SlotJson where
  | dict (d : SlotDoc)
  | unparsable
  deriving DecidableEq, Repr

/-- The slot file on disk: `none` when the file does not exist. -/
abbrev SlotFile := Option SlotJson

/-- Model of `read_json_safe` (app2.py lines 47-53): `None` when the file is absent or
`json.load` raises; the parsed document otherwise. -/
def read_json_safe : SlotFile → Option SlotDoc
  | some (.dict d) => some d
  | _ => none

/-- Model of `read_slot_data` (app2.py lines 76-78): the parsed slot document, or the
empty object when the file is absent or unreadable. -/
def read_slot_data (file : SlotFile) : SlotDoc :=
  (read_json_safe file).getD {}

/-- Model of `get_current_pin` (app2.py lines 94-97): the `pin` key of the slot file. -/
def get_current_pin (file : SlotFile) : Option String :=
  (read_slot_data file).pin

/-- Model of `ensure_current_slot` (app2.py lines 56-74), with the current clock reading
and the freshly drawn uuid4 hex passed explicitly, and the slot file threaded
as state. An absent `created` key is read as `0` (line 60). The slot is kept
when the stored key is truthy and `now_ts - created <= ttl`; otherwise a new
document holding only `slot_key` and `created` replaces the file. This models
the success path of the write; the fallback write paths are studied separately
by `slotWriteOps`. -/
def ensure_current_slot (ttl now_ts : Int) (new_slot : String) (file : SlotFile) :
    (String × Int) × SlotFile :=
  let minted : (String × Int) × SlotFile :=
    ((new_slot, now_ts),
      some (.dict { slot_key := some new_slot, created := some now_ts }))
  match read_json_safe file with
  | some d =>
    match d.slot_key with
    | some slot =>
      if slot ≠ "" ∧ now_ts - d.created.getD 0 ≤ ttl then
        ((slot, d.created.getD 0), file)
      else minted
    | none => minted
  | none => minted

/-- Model of `set_current_pin` (app2.py lines 99-105) with a successful write: update the
slot document in place, clearing to the empty pin or recording the pin with its
set time. -/
def set_current_pin (pin_value : String) (now_ts : Int) (file : SlotFile) : SlotFile :=
  let pin := pyStrip pin_value
  let d := read_slot_data file
  if pin = "" then some (.dict { d with pin := some "" })
  else some (.dict { d with pin := some pin, pin_set_at := some now_ts })

/-- The freshness test of `ensure_current_slot` lines 59-61, as a standalone
query: the stored (slot, created) pair when the file parses to an object whose
`slot_key` is truthy and whose age `now_ts - created` is at most `ttl` (an
absent `created` reads as 0), and `none` otherwise. -/
def slotLive (ttl now_ts : Int) (file : SlotFile) : Option (String × Int) :=
  match read_json_safe file with
  | some d =>
    match d.slot_key with
    | some slot =>
      if slot ≠ "" ∧ now_ts - d.created.getD 0 ≤ ttl then some (slot, d.created.getD 0)
      else none
    | none => none
  | none => none

/- ------------------------------------------------------------------
Slot-file write traces and what a concurrent reader can observe
(for `atomic_write_json`, app2.py lines 40-45, and the fallback writes at
lines 66-73 and 83-92).
------------------------------------------------------------------ -/

/-- One filesystem operation on the slot file performed by the writers. -/
inductive FsOp where
  | writeTmp (d : SlotDoc)
  | renameTmp
  | writeCanonical (d : SlotDoc)
  deriving DecidableEq, Repr

/-- Model of `atomic_write_json` (app2.py lines 40-45) as its operation trace: dump the
document to `current_slot.tmp` (flushed and fsynced), then `Path.replace` the
tmp file onto the canonical path. -/
def atomic_write_json (d : SlotDoc) : List FsOp :=
  [.writeTmp d, .renameTmp]

/-- The slot-write pattern shared by `ensure_current_slot` (lines 66-73) and
`write_slot_data` (lines 83-92): try `atomic_write_json`; if it raises
(`atomicOk = false`), fall back to a plain truncating `open(SLOT_FILE, "w")`
and `json.dump`; if opening that also raises (`plainOk = false`), swallow the
error (respectively return False) having performed no write. -/
def slotWriteOps (atomicOk plainOk : Bool) (d : SlotDoc) : List FsOp :=
  if atomicOk then atomic_write_json d
  else if plainOk then [.writeCanonical d]
  else []

/-- What a reader opening the canonical slot file at some instant can see. -/
inductive FileView where
  | absent
  | complete (d : SlotDoc)
  | halfWritten
  deriving DecidableEq, Repr

/-- Canonical file plus tmp-file content during a write sequence. -/
structure DiskState where
  canon : FileView
  tmp : Option SlotDoc
  deriving DecidableEq, Repr

/-- The disk states a concurrent reader can observe while one operation runs:
writing the tmp file never touches the canonical file; the rename promotes the
tmp content in a single atomic step; a plain truncating write passes through a
half-written canonical file before completing. -/
def opViews (s : DiskState) : FsOp → List DiskState
  | .writeTmp d => [{ s with tmp := some d }]
  | .renameTmp =>
    match s.tmp with
    | some d => [{ canon := .complete d, tmp := none }]
    | none => [s]
  | .writeCanonical d =>
    [{ s with canon := .halfWritten }, { s with canon := .complete d }]

/-- All intermediate disk states produced by running a trace from `s`
(excluding `s` itself). -/
def runOps (s : DiskState) : List FsOp → List DiskState
  | [] => []
  | op :: rest =>
    let mids := opViews s op
    mids ++ runOps (mids.getLastD s) rest

/-- Every canonical-file view a concurrent reader can observe while the trace
runs, the initial state included. -/
def canonViews (s : DiskState) (ops : List FsOp) : List FileView :=
  (s :: runOps s ops).map DiskState.canon

/- ------------------------------------------------------------------
The attendance store: `data/attendance.csv`
------------------------------------------------------------------ -/

/-- One attendance record, the dict built at app2.py line 335. -/
structure Row where
  timestamp : Cell
  slot_key : String
  name : String
  email : String
  cid : String
  deriving DecidableEq, Repr

/-- A line of the CSV file, cells in column order. -/
abbrev CsvLine := List Cell

/-- The attendance CSV on disk: absent, a file `pd.read_csv` raises on, or a
list of lines (the first line being the header when the app wrote the file).
Appending a line to an unparsable file leaves it unparsable. -/
inductive CsvFile where
  | missing
  | corrupt
  | content (ls : List CsvLine)
  deriving DecidableEq, Repr

/-- The field order of every row dict the app writes (line 335), hence the
header `csv.DictWriter` emits and the columns of the empty frames built in
`read_df`, `archive_records` and `clear_records`. -/
def csvFieldnames : List String :=
  ["timestamp", "slot_key", "name", "email", "cid"]

/-- The header line written for a fresh store. -/
def headerLine : CsvLine := csvFieldnames.map Cell.raw

/-- A record as the CSV line `csv.DictWriter.writerow` emits for it. -/
def encodeRow (r : Row) : CsvLine :=
  [r.timestamp, .raw r.slot_key, .raw r.name, .raw r.email, .raw r.cid]

/-- Model of `safe_append_csv` (app2.py lines 118-129). `ioOk` tells whether the I/O in
the try block succeeds; `err` is the message of the exception otherwise.
Result: ((ok, error-message), file after the call, fsynced-before-return).
The header is written only when `CSV_PATH.exists()` was false; exactly one
record line is then written, flushed and fsynced. On failure the exception is
caught and returned, never raised. -/
def safe_append_csv (ioOk : Bool) (err : String) (r : Row) (file : CsvFile) :
    (Bool × String) × CsvFile × Bool :=
  if ioOk then
    match file with
    | .missing => ((true, ""), .content [headerLine, encodeRow r], true)
    | .corrupt => ((true, ""), .corrupt, true)
    | .content ls => ((true, ""), .content (ls ++ [encodeRow r]), true)
  else ((false, err), file, false)

/-- The shape of a pandas DataFrame: column names plus rows, each row's cells
aligned with the columns. -/
structure Df where
  cols : List String
  rows : List CsvLine
  deriving DecidableEq, Repr

/-- The empty five-column frame `pd.DataFrame(columns=[...])` built in
`read_df`, `archive_records` and `clear_records`. -/
def emptyDf : Df := { cols := csvFieldnames, rows := [] }

/-- How `pd.read_csv` shapes a parsable file: first line as header, the rest
as rows, each field kept as the string that was written. read_csv additionally
infers a dtype per column; that inference is observable in the claims proved
here only through the duplicate test's comparisons, and is modeled there
(`columnIsNumeric`, `pdColCellEq`). -/
def dfOfContent (ls : List CsvLine) : Df :=
  { cols := (ls.headD []).map cellStr, rows := ls.tail }

/-- Model of `read_df` (app2.py lines 131-138) with the store threaded as state: an
absent store is initialized to empty-with-header on disk and an empty frame is
returned; an unparsable store yields the same empty frame (the exception is
caught); otherwise the parsed table is returned. -/
def read_df : CsvFile → Df × CsvFile
  | .missing => (emptyDf, .content [headerLine])
  | .corrupt => (emptyDf, .corrupt)
  | .content ls => (dfOfContent ls, .content ls)

/-- Cell of `row` under column `c`, given the frame's column list (pandas
column selection); defaults are irrelevant for aligned frames. -/
def colCell (cols : List String) (row : CsvLine) (c : String) : Cell :=
  ((cols.zip row).lookup c).getD (.raw "")

/-- String value of `row` under column `c`. -/
def colStr (cols : List String) (row : CsvLine) (c : String) : String :=
  cellStr (colCell cols row c)

/-- Model of `df_for_export` (app2.py lines 140-146): identity on an empty frame;
otherwise map the timestamp column through `now_local_str`, then project onto
the non-cid columns in the fixed order. -/
def df_for_export (df : Df) : Df :=
  if df.rows.isEmpty then df
  else
    let d : Df :=
      { df with
        rows := df.rows.map (fun row =>
          (df.cols.zip row).map (fun p =>
            if p.1 = "timestamp" then Cell.raw (now_local_str p.2) else p.2)) }
    let cols := ["timestamp", "slot_key", "name", "email"].filter (· ∈ d.cols)
    { cols := cols,
      rows := d.rows.map (fun row => cols.map (fun c => colCell d.cols row c)) }

/-- Model of `df_to_xlsx_bytes` (app2.py lines 148-153): the worksheet serializes
exactly the projection `df_for_export df`, header row first. -/
def df_to_xlsx_bytes (df : Df) : List (List String) :=
  let d := df_for_export df
  d.cols :: d.rows.map (fun row => row.map cellStr)

/-- Model of `clear_records` (app2.py lines 165-170) with a successful write: overwrite
the store with the empty five-column table (header row only). -/
def clear_records (_file : CsvFile) : (Bool × String) × CsvFile :=
  ((true, ""), .content [headerLine])

/-- The Clear-now click handler (app2.py lines 418-426): wrong password or a
confirmation phrase other than the literal CLEAR leaves the store untouched;
otherwise `clear_records` reinitializes it. -/
def clear_now (pw admin_password clear_token : String) (store : CsvFile) : CsvFile :=
  if pw ≠ admin_password then store
  else if clear_token ≠ "CLEAR" then store
  else (clear_records store).2

/- ------------------------------------------------------------------
The submission request handler (app2.py lines 298-342)
------------------------------------------------------------------ -/

/-- Query parameters of the page URL; `none` means the parameter is absent. -/
structure Params where
  key : Option String := none
  s : Option String := none
  cid : Option String := none
  deriving DecidableEq, Repr

/-- Config flag `ENFORCE_CID` (app2.py line 16). -/
def ENFORCE_CID : Bool := true

/-- The minimal shape check on a device id (line 303): truthy and longer than
8 characters. -/
def cidShapeOk : Option String → Bool
  | some c => decide (c ≠ "" ∧ 8 < c.length)
  | none => false

/-- The `cid` / `valid_link` computation (app2.py lines 298-304): the cid is
extracted only when both `key` and `s` are present and match the current slot
key and the configured secret; the link is valid when additionally the cid
passes the shape check (or device-locking is off). -/
def link_check (secret slot_key : String) (p : Params) : Option String × Bool :=
  match p.key, p.s with
  | some k, some sv =>
    if sv = secret ∧ k = slot_key then
      (p.cid, !ENFORCE_CID || cidShapeOk p.cid)
    else (none, false)
  | _, _ => (none, false)

/-- The outcome the student sees after clicking Mark Attendance. -/
inductive Outcome where
  | missingFields
  | invalidLink
  | noPin
  | wrongPin
  | duplicate
  | saveFailed
  | accepted
  deriving DecidableEq, Repr

/-- The exact user-visible text `st.error` / `st.success` shows for each
outcome (app2.py lines 314-342; the source success text uses an em dash,
rendered here as a plain dash). -/
def outcomeMessage : Outcome → String
  | .missingFields => "Enter name and email."
  | .invalidLink =>
    "Submission blocked: page missing valid CID. Use Open on this device or Open in new tab (with cid)."
  | .noPin => "Teacher has not set a PIN for this slot. Ask the teacher to set it in Admin."
  | .wrongPin => "Wrong PIN. Ask your teacher for the current class PIN."
  | .duplicate => "This device already submitted for this slot."
  | .saveFailed => "Save failed."
  | .accepted => "Attendance marked - thank you!"

/-- A CSV field `pd.read_csv` parses as an integer: an optional sign followed
by digits (leading zeros lose their significance in the parsed value). Float
spellings also coerce in pandas; they are outside what the app writes and what
the theorems here evaluate, and are noted rather than modeled. -/
def pdNumericStr (s : String) : Bool :=
  match s.data with
  | [] => false
  | c :: cs =>
    if c = '-' ∨ c = '+' then !cs.isEmpty && cs.all Char.isDigit
    else (c :: cs).all Char.isDigit

/-- Per-column dtype inference of `pd.read_csv`: a column every field of which
is numeric becomes a numeric dtype (int64 for integers; empty fields read as
NaN and do not block numeric inference), while any other value keeps the whole
column as strings (object dtype). -/
def columnIsNumeric (df : Df) (c : String) : Bool :=
  df.rows.all (fun row => pdNumericStr (colStr df.cols row c) || colStr df.cols row c == "")

/-- Elementwise pandas comparison of a read-back column with a Python string
scalar, as in `df[col] == value`: a numeric-dtype column never equals a
string; in a string column an empty field reads as NaN and equals nothing,
and every other field compares by string equality. -/
def pdColCellEq (df : Df) (col : String) (row : CsvLine) (v : String) : Bool :=
  if columnIsNumeric df col then false
  else colStr df.cols row col != "" && colStr df.cols row col == v

/-- The duplicate test (app2.py lines 327-331): some stored row for which both
the slot_key-column and the cid-column comparisons hold, under read_csv dtype
inference — in particular an all-digit cid column is read back as int64 and
compares False against the request's string cid on every row. A frame without
a `slot_key` column raises and the exception handler yields False; a frame
without a `cid` column compares the scalar default against the cid, which is
False on every row, and a `None` cid compares unequal to every stored value. -/
def dfDup (df : Df) (slot_key : String) (cid : Option String) : Bool :=
  if "slot_key" ∈ df.cols ∧ "cid" ∈ df.cols then
    match cid with
    | some c =>
      df.rows.any (fun row =>
        pdColCellEq df "slot_key" row slot_key && pdColCellEq df "cid" row c)
    | none => false
  else false

/-- The submission handler (app2.py lines 298-342) as a transition on the CSV
store. Ambient inputs: the configured secret, the current slot key and the pin
`get_current_pin` returns for it. Per-request inputs: query parameters, the
three form fields and the clock. `saveOk` tells whether the I/O inside
`safe_append_csv` succeeds. Returns the outcome plus the store after the
request (`read_df` initializes an absent store as a side effect). -/
def handle_submission (secret slot_key : String) (stored_pin : Option String)
    (p : Params) (name email pin_entered : String) (now : DateTime)
    (saveOk : Bool) (store : CsvFile) : Outcome × CsvFile :=
  let lc := link_check secret slot_key p
  if pyStrip name = "" ∨ pyStrip email = "" then (.missingFields, store)
  else if lc.2 = false then (.invalidLink, store)
  else
    match stored_pin with
    | none => (.noPin, store)
    | some current_pin =>
      if current_pin ≠ "" ∧ pyStrip current_pin ≠ "" then
        if pin_entered = "" ∨ pyStrip pin_entered ≠ pyStrip current_pin then (.wrongPin, store)
        else
          let dfp := read_df store
          if dfDup dfp.1 slot_key lc.1 then (.duplicate, dfp.2)
          else
            let row : Row :=
              { timestamp := .isoTs now, slot_key := slot_key,
                name := pyStrip name, email := pyStrip email, cid := (lc.1).getD "" }
            let res := safe_append_csv saveOk "save error" row dfp.2
            if res.1.1 then (.accepted, res.2.1) else (.saveFailed, res.2.1)
      else (.noPin, store)

/- ------------------------------------------------------------------
Well-formed app-written stores and their frames
------------------------------------------------------------------ -/

/-- A store file as the app itself writes it: the five-column header followed
by one encoded line per record. -/
def appStore (rs : List Row) : CsvFile :=
  .content (headerLine :: rs.map encodeRow)

/-- The frame `pd.read_csv` yields for such a store. -/
def dfOfRows (rs : List Row) : Df :=
  { cols := csvFieldnames, rows := rs.map encodeRow }

/-- The export projection of one record: timestamp reformatted, cid dropped. -/
def exportRow (r : Row) : CsvLine :=
  [.raw (now_local_str r.timestamp), .raw r.slot_key, .raw r.name, .raw r.email]

/-- The checks the submission handler runs before the duplicate test: fields
present, link valid, a pin set and correctly entered (app2.py lines 314-324). -/
def earlierChecksPass (secret slot_key : String) (stored_pin : Option String)
    (p : Params) (name email pin_entered : String) : Prop :=
  pyStrip name ≠ "" ∧ pyStrip email ≠ "" ∧ (link_check secret slot_key p).2 = true ∧
    ∃ cp, stored_pin = some cp ∧ cp ≠ "" ∧ pyStrip cp ≠ "" ∧
      pin_entered ≠ "" ∧ pyStrip pin_entered = pyStrip cp

/-- Sample instant used in concrete witnesses. -/
def sampleDT : DateTime := ⟨2026, 1, 1, 9, 0, 0⟩

/-- Sample stored record used in concrete witnesses. -/
def rowAda : Row :=
  { timestamp := .isoTs ⟨2026, 1, 1, 8, 55, 0⟩, slot_key := "slotA", name := "Ada",
    email := "a@b.c", cid := "0123456789" }

/-- Sample link parameters matching slot slotA, secret s3cr3t and a
well-shaped cid. -/
def goodParams : Params :=
  { key := some "slotA", s := some "s3cr3t", cid := some "0123456789" }

/- ------------------------------------------------------------------
Helper lemmas
------------------------------------------------------------------ -/

lemma ensure_current_slot_keep (ttl now_ts : Int) (new_slot slot : String)
    (created : Int) (file : SlotFile)
    (h : slotLive ttl now_ts file = some (slot, created)) :
    ensure_current_slot ttl now_ts new_slot file = ((slot, created), file) := by
  cases hd : read_json_safe file with
  | none => simp [slotLive, hd] at h
  | some d =>
    cases hk : d.slot_key with
    | none => simp [slotLive, hd, hk] at h
    | some s =>
      by_cases hc : s ≠ "" ∧ now_ts - d.created.getD 0 ≤ ttl
      · simp only [slotLive, hd, hk, if_pos hc, Option.some_inj] at h
        simp only [ensure_current_slot, hd, hk, if_pos hc]
        rw [← h]
      · simp only [slotLive, hd, hk] at h
        rw [if_neg hc] at h
        exact Option.noConfusion h

lemma ensure_current_slot_mint (ttl now_ts : Int) (new_slot : String)
    (file : SlotFile) (h : slotLive ttl now_ts file = none) :
    ensure_current_slot ttl now_ts new_slot file =
      ((new_slot, now_ts),
        some (.dict { slot_key := some new_slot, created := some now_ts })) := by
  cases hd : read_json_safe file with
  | none => simp [ensure_current_slot, hd]
  | some d =>
    cases hk : d.slot_key with
    | none => simp [ensure_current_slot, hd, hk]
    | some s =>
      by_cases hc : s ≠ "" ∧ now_ts - d.created.getD 0 ≤ ttl
      · simp only [slotLive, hd, hk] at h
        rw [if_pos hc] at h
        exact Option.noConfusion h
      · simp only [ensure_current_slot, hd, hk]
        rw [if_neg hc]

/-- Exhaustive branch analysis of the submission handler: either one of the
field / link / pin checks fails, nothing is appended and the store is
untouched, or all of them pass and the handler either reports a duplicate
(store untouched past the `read_df` initialization) or appends exactly the
one new record via `safe_append_csv`. -/
lemma handle_submission_split (secret slot_key : String) (stored_pin : Option String)
    (p : Params) (name email pin_entered : String) (now : DateTime)
    (saveOk : Bool) (store : CsvFile) :
    (¬ earlierChecksPass secret slot_key stored_pin p name email pin_entered ∧
      ∃ o, handle_submission secret slot_key stored_pin p name email pin_entered now saveOk store =
          (o, store) ∧
        (o = .missingFields ∨ o = .invalidLink ∨ o = .noPin ∨ o = .wrongPin)) ∨
    (earlierChecksPass secret slot_key stored_pin p name email pin_entered ∧
      ((dfDup (read_df store).1 slot_key (link_check secret slot_key p).1 = true ∧
          handle_submission secret slot_key stored_pin p name email pin_entered now saveOk store =
            (.duplicate, (read_df store).2)) ∨
        (dfDup (read_df store).1 slot_key (link_check secret slot_key p).1 = false ∧
          (saveOk = true →
            handle_submission secret slot_key stored_pin p name email pin_entered now saveOk store =
              (.accepted,
                (safe_append_csv true "save error"
                  { timestamp := .isoTs now, slot_key := slot_key, name := pyStrip name,
                    email := pyStrip email,
                    cid := ((link_check secret slot_key p).1).getD "" }
                  (read_df store).2).2.1)) ∧
          (saveOk = false →
            handle_submission secret slot_key stored_pin p name email pin_entered now saveOk store =
              (.saveFailed, (read_df store).2))))) := by
  by_cases h1 : pyStrip name = "" ∨ pyStrip email = ""
  · refine Or.inl ⟨?_, .missingFields, ?_, Or.inl rfl⟩
    · rintro ⟨hn, he, -⟩
      rcases h1 with h | h
      · exact hn h
      · exact he h
    · simp only [handle_submission, if_pos h1]
  · by_cases h2 : (link_check secret slot_key p).2 = false
    · refine Or.inl ⟨?_, .invalidLink, ?_, Or.inr (Or.inl rfl)⟩
      · rintro ⟨-, -, hv, -⟩
        rw [hv] at h2
        cases h2
      · simp only [handle_submission, if_neg h1, if_pos h2]
    · have hv : (link_check secret slot_key p).2 = true := by
        cases hb : (link_check secret slot_key p).2
        · exact absurd hb h2
        · rfl
      cases hsp : stored_pin with
      | none =>
        refine Or.inl ⟨?_, .noPin, ?_, Or.inr (Or.inr (Or.inl rfl))⟩
        · rintro ⟨-, -, -, cp, hcp, -⟩
          cases hcp
        · simp only [handle_submission, if_neg h1, if_neg h2]
      | some cp =>
        by_cases h3 : cp ≠ "" ∧ pyStrip cp ≠ ""
        · by_cases h4 : pin_entered = "" ∨ pyStrip pin_entered ≠ pyStrip cp
          · refine Or.inl ⟨?_, .wrongPin, ?_, Or.inr (Or.inr (Or.inr rfl))⟩
            · rintro ⟨-, -, -, cp2, hcp2, -, -, hpe, hmatch⟩
              injection hcp2 with hcc
              subst hcc
              rcases h4 with h | h
              · exact hpe h
              · exact h hmatch
            · simp only [handle_submission, if_neg h1, if_neg h2, if_pos h3, if_pos h4]
          · have h4n : pin_entered ≠ "" ∧ pyStrip pin_entered = pyStrip cp := by
              push_neg at h4
              exact h4
            have hpass : earlierChecksPass secret slot_key (some cp) p name email pin_entered := by
              push_neg at h1
              exact ⟨h1.1, h1.2, hv, cp, rfl, h3.1, h3.2, h4n.1, h4n.2⟩
            refine Or.inr ⟨hpass, ?_⟩
            by_cases h5 : dfDup (read_df store).1 slot_key (link_check secret slot_key p).1 = true
            · refine Or.inl ⟨h5, ?_⟩
              simp only [handle_submission, if_neg h1, if_neg h2, if_pos h3, if_neg h4, if_pos h5]
            · have h5f : dfDup (read_df store).1 slot_key (link_check secret slot_key p).1 = false := by
                cases hb : dfDup (read_df store).1 slot_key (link_check secret slot_key p).1
                · rfl
                · exact absurd hb h5
              refine Or.inr ⟨h5f, ?_, ?_⟩
              · intro hs
                subst hs
                simp only [handle_submission, if_neg h1, if_neg h2, if_pos h3, if_neg h4, if_neg h5]
                cases hc : (read_df store).2 <;> simp [safe_append_csv, hc]
              · intro hs
                subst hs
                simp only [handle_submission, if_neg h1, if_neg h2, if_pos h3, if_neg h4, if_neg h5]
                simp [safe_append_csv]
        · refine Or.inl ⟨?_, .noPin, ?_, Or.inr (Or.inr (Or.inl rfl))⟩
          · rintro ⟨-, -, -, cp2, hcp2, hne2, hstrip2, -⟩
            injection hcp2 with hcc
            subst hcc
            exact h3 ⟨hne2, hstrip2⟩
          · simp only [handle_submission, if_neg h1, if_neg h2, if_neg h3]

/- ------------------------------------------------------------------
Claim theorems
------------------------------------------------------------------ -/

/-- Claim C1: `ensure_current_slot` returns the stored (slot_key, created)
pair unchanged whenever the persisted slot is live (truthy key and
now - created at most ttl, an absent created reading as 0); otherwise
(expired, absent or unreadable state) it persists exactly the document
holding the freshly drawn key with created = now and returns that pair, the
returned key differing from any previously stored one whenever the fresh
uuid4 hex does. -/
theorem ensure_current_slot_ttl_spec (ttl now_ts : Int) (new_slot : String)
    (file : SlotFile) :
    (∀ slot created, slotLive ttl now_ts file = some (slot, created) →
      ensure_current_slot ttl now_ts new_slot file = ((slot, created), file)) ∧
    (slotLive ttl now_ts file = none →
      ensure_current_slot ttl now_ts new_slot file =
        ((new_slot, now_ts),
          some (.dict { slot_key := some new_slot, created := some now_ts })) ∧
      ∀ old, (read_slot_data file).slot_key = some old → new_slot ≠ old →
        (ensure_current_slot ttl now_ts new_slot file).1.1 ≠ old) := by
  refine ⟨fun slot created h => ensure_current_slot_keep _ _ _ _ _ _ h, fun h => ?_⟩
  refine ⟨ensure_current_slot_mint _ _ _ _ h, fun old _ hne => ?_⟩
  rw [ensure_current_slot_mint _ _ _ _ h]
  exact hne

/-- Witness for C1: a live slot (age 500 at ttl 600) is returned unchanged; an
expired one (age 1500) is replaced by the fresh key stamped now. -/
theorem ensure_current_slot_ttl_spec_witness :
    ensure_current_slot 600 1000 "f4c3"
        (some (.dict { slot_key := some "old", created := some 500 })) =
      (("old", 500), some (.dict { slot_key := some "old", created := some 500 })) ∧
    ensure_current_slot 600 2000 "f4c3"
        (some (.dict { slot_key := some "old", created := some 500 })) =
      (("f4c3", 2000), some (.dict { slot_key := some "f4c3", created := some 2000 })) :=
  ⟨(ensure_current_slot_ttl_spec 600 1000 "f4c3" _).1 "old" 500 (by decide),
    ((ensure_current_slot_ttl_spec 600 2000 "f4c3" _).2 (by decide)).1⟩

/-- Claim C10: rotating the slot persists a document holding only slot_key
and created, so a previously stored pin is discarded and `get_current_pin`
reads none for the new slot. -/
theorem rotation_clears_pin (ttl now_ts : Int) (new_slot : String)
    (file : SlotFile) (hstale : slotLive ttl now_ts file = none) :
    (ensure_current_slot ttl now_ts new_slot file).2 =
      some (.dict { slot_key := some new_slot, created := some now_ts }) ∧
    get_current_pin (ensure_current_slot ttl now_ts new_slot file).2 = none := by
  rw [ensure_current_slot_mint _ _ _ _ hstale]
  exact ⟨rfl, rfl⟩

/-- Witness for C10: a rotation away from an expired slot carrying pin 1234
leaves a slot file with no pin. -/
theorem rotation_clears_pin_witness :
    (ensure_current_slot 600 2000 "f4c3"
        (some (.dict { slot_key := some "old", created := some 500, pin := some "1234" }))).2 =
      some (.dict { slot_key := some "f4c3", created := some 2000 }) ∧
    get_current_pin (ensure_current_slot 600 2000 "f4c3"
        (some (.dict { slot_key := some "old", created := some 500, pin := some "1234" }))).2 = none :=
  rotation_clears_pin 600 2000 "f4c3" _ (by decide)

/-- Claim C5 counterexample: when `atomic_write_json` raises, the fallback
plain write of the canonical slot file lets a concurrent reader observe a
half-written file, refuting that every slot write is tmp-write-then-rename. -/
theorem slot_write_fallback_half_written :
    FileView.halfWritten ∈
      canonViews { canon := .complete {}, tmp := none }
        (slotWriteOps false true { slot_key := some "k", created := some 0 }) := by
  decide

/-- Claim C5 amended: on the primary path the slot write is a tmp-file write
followed by one atomic rename and a concurrent reader only ever observes the
old canonical content or the new complete document; but when
`atomic_write_json` raises, the fallback performs a direct non-atomic write
during which a half-written canonical file is observable. -/
theorem slot_write_observation_spec (d : SlotDoc) (s : DiskState) (plainOk : Bool) :
    slotWriteOps true plainOk d = atomic_write_json d ∧
    (∀ v ∈ canonViews s (slotWriteOps true plainOk d), v = s.canon ∨ v = .complete d) ∧
    FileView.halfWritten ∈ canonViews s (slotWriteOps false true d) := by
  refine ⟨rfl, fun v hv => ?_, ?_⟩
  · simp only [canonViews, slotWriteOps, atomic_write_json, runOps, opViews,
      List.getLastD, if_pos] at hv
    simp at hv
    tauto
  · simp [canonViews, slotWriteOps, runOps, opViews]

/-- Witness for C5 amended: with the atomic path succeeding from an absent
file, the final observed view is the new complete document. -/
theorem slot_write_observation_spec_witness :
    FileView.complete { slot_key := some "k" } = FileView.absent ∨
      FileView.complete { slot_key := some "k" } =
        FileView.complete { slot_key := some "k" } :=
  (slot_write_observation_spec { slot_key := some "k" } ⟨.absent, none⟩ true).2.1
    (.complete { slot_key := some "k" }) (by decide)

/-- Claim C6: `safe_append_csv` writes the header exactly when the store file
did not exist, appends the single encoded record, flushes and fsyncs before
returning (true, ""), and on an I/O failure catches the exception and returns
(false, message). -/
theorem safe_append_csv_spec (err : String) (r : Row) (ls : List CsvLine)
    (f : CsvFile) :
    safe_append_csv true err r .missing =
      ((true, ""), .content [headerLine, encodeRow r], true) ∧
    safe_append_csv true err r (.content ls) =
      ((true, ""), .content (ls ++ [encodeRow r]), true) ∧
    safe_append_csv false err r f = ((false, err), f, false) :=
  ⟨rfl, rfl, rfl⟩

/-- Claim C7: `read_df` never raises; an absent store yields the empty frame
with exactly the five store columns (and initializes the store on disk), and
an unparsable store yields the same empty, correctly shaped frame. -/
theorem read_df_shape_spec :
    (read_df .missing).1 = emptyDf ∧ (read_df .corrupt).1 = emptyDf ∧
    emptyDf.cols = ["timestamp", "slot_key", "name", "email", "cid"] ∧
    emptyDf.rows = [] :=
  ⟨rfl, rfl, rfl, rfl⟩

/-- Claim C8: the Clear-now handler leaves the store byte-for-byte untouched
unless both the admin password and the exact phrase CLEAR are supplied, in
which case the store becomes the empty five-column table, header row only. -/
theorem clear_now_spec (pw admin clear_token : String) (store : CsvFile) :
    (pw ≠ admin ∨ clear_token ≠ "CLEAR" →
      clear_now pw admin clear_token store = store) ∧
    (pw = admin ∧ clear_token = "CLEAR" →
      clear_now pw admin clear_token store = .content [headerLine]) := by
  constructor
  · rintro (h | h)
    · simp only [clear_now, if_pos h]
    · by_cases hpw : pw ≠ admin
      · simp only [clear_now, if_pos hpw]
      · simp only [clear_now, if_neg hpw, if_pos h]
  · rintro ⟨h1, h2⟩
    simp [clear_now, h1, h2, clear_records]

/-- Witness for C8: a wrong password leaves a one-record store unchanged; the
right password with the exact phrase empties it to the header. -/
theorem clear_now_spec_witness :
    clear_now "nope" "admin" "CLEAR"
        (.content [headerLine, [Cell.raw "t", Cell.raw "s", Cell.raw "n", Cell.raw "e", Cell.raw "c"]]) =
      .content [headerLine, [Cell.raw "t", Cell.raw "s", Cell.raw "n", Cell.raw "e", Cell.raw "c"]] ∧
    clear_now "admin" "admin" "CLEAR"
        (.content [headerLine, [Cell.raw "t", Cell.raw "s", Cell.raw "n", Cell.raw "e", Cell.raw "c"]]) =
      .content [headerLine] :=
  ⟨(clear_now_spec "nope" "admin" "CLEAR" _).1 (Or.inl (by decide)),
    (clear_now_spec "admin" "admin" "CLEAR" _).2 ⟨rfl, rfl⟩⟩

/-- Claim C9: the implicit PIN gate — a submission is accepted only when the
slot's stored pin is nonempty after trimming and the entered pin equals it
after trimming; when no pin (or a blank pin) is stored, every submission is
rejected and the store is untouched, whatever the slot key, secret, cid, name
and email supplied. -/
theorem pin_gate_spec (secret slot_key : String) (stored_pin : Option String)
    (p : Params) (name email pin_entered : String) (now : DateTime)
    (saveOk : Bool) (store : CsvFile) :
    ((handle_submission secret slot_key stored_pin p name email pin_entered now saveOk store).1 =
        .accepted →
      ∃ cp, stored_pin = some cp ∧ pyStrip cp ≠ "" ∧ pyStrip pin_entered = pyStrip cp) ∧
    ((stored_pin = none ∨ ∃ cp, stored_pin = some cp ∧ pyStrip cp = "") →
      (handle_submission secret slot_key stored_pin p name email pin_entered now saveOk store).1 ≠
        .accepted ∧
      (handle_submission secret slot_key stored_pin p name email pin_entered now saveOk store).2 =
        store) := by
  rcases handle_submission_split secret slot_key stored_pin p name email pin_entered now saveOk store with
    ⟨hnp, o, heq, ho⟩ | ⟨hpass, hcase⟩
  · constructor
    · intro hacc
      rw [heq] at hacc
      rcases ho with rfl | rfl | rfl | rfl <;> simp at hacc
    · intro _
      constructor
      · rw [heq]
        rcases ho with rfl | rfl | rfl | rfl <;> simp
      · rw [heq]
  · obtain ⟨hn, he, hv, cp, hcp, hne, hstrip, hpe, hmatch⟩ := hpass
    constructor
    · intro _
      exact ⟨cp, hcp, hstrip, hmatch⟩
    · intro hun
      exfalso
      rcases hun with h0 | ⟨cp2, hcp2, hstrip2⟩
      · rw [h0] at hcp
        cases hcp
      · rw [hcp2] at hcp
        injection hcp with hcc
        exact hstrip (hcc ▸ hstrip2)

/-- Witness for C9: with a blank pin stored for the slot, a submission with a
valid link, cid, name and email is still rejected and the store unchanged. -/
theorem pin_gate_spec_witness :
    (handle_submission "s3cr3t" "slotA" (some " ") goodParams
        "Ada" "a@b.c" " " sampleDT true (.content [headerLine])).1 ≠ .accepted ∧
    (handle_submission "s3cr3t" "slotA" (some " ") goodParams
        "Ada" "a@b.c" " " sampleDT true (.content [headerLine])).2 =
      .content [headerLine] :=
  (pin_gate_spec "s3cr3t" "slotA" (some " ") goodParams
      "Ada" "a@b.c" " " sampleDT true (.content [headerLine])).2
    (Or.inr ⟨" ", rfl, by decide⟩)

/-- Claim C2 (code bug): with exactly one record for (slotA, cid 0123456789)
stored — an all-digit cid, so `pd.read_csv` reads the cid column back as
int64 — a second submission from the same device that passes every check is
accepted and appended: the elementwise comparison of the numeric column with
the string cid is False on the matching row, the duplicate is missed, and the
store ends with two records sharing the same (slot_key, cid) pair, violating
the claimed at-most-one invariant. -/
theorem numeric_cid_duplicate_appended :
    (handle_submission "s3cr3t" "slotA" (some "1234") goodParams
        "Bob" "b@b.c" "1234" sampleDT true (appStore [rowAda])).1 = .accepted ∧
    (handle_submission "s3cr3t" "slotA" (some "1234") goodParams
        "Bob" "b@b.c" "1234" sampleDT true (appStore [rowAda])).2 =
      appStore [rowAda,
        { timestamp := .isoTs sampleDT, slot_key := "slotA", name := "Bob",
          email := "b@b.c", cid := "0123456789" }] ∧
    rowAda.slot_key = "slotA" ∧ rowAda.cid = "0123456789" :=
  ⟨by decide, by decide, rfl, rfl⟩

/-- Claim C3 counterexample: a stale (expired or tampered) slot key in the
link and a missing device id produce the identical rejection message, so
invalid/expired-link and missing-device-id are not reported by distinct
messages (and the handler has no duplicate-email reason at all). -/
theorem invalid_link_and_missing_cid_share_message :
    (handle_submission "s3cr3t" "slotA" (some "1234")
        { key := some "stale", s := some "s3cr3t", cid := some "0123456789" }
        "Ada" "a@b.c" "1234" sampleDT true (.content [headerLine])).1 = .invalidLink ∧
    (handle_submission "s3cr3t" "slotA" (some "1234")
        { key := some "slotA", s := some "s3cr3t", cid := none }
        "Ada" "a@b.c" "1234" sampleDT true (.content [headerLine])).1 = .invalidLink ∧
    outcomeMessage .invalidLink =
      "Submission blocked: page missing valid CID. Use Open on this device or Open in new tab (with cid)." :=
  ⟨by decide, by decide, rfl⟩

/-- Claim C3 amended: every rejection carries the fixed message of the failed
check — missing fields, invalid-or-expired link or missing/short device id
(one combined message), no pin set, wrong pin, duplicate device, save
failure — and distinct outcomes never share a message; there is no separate
duplicate-email reason in this variant. -/
theorem rejection_messages_distinct (o1 o2 : Outcome) (h : o1 ≠ o2) :
    outcomeMessage o1 ≠ outcomeMessage o2 := by
  cases o1 <;> cases o2 <;> first
    | exact absurd rfl h
    | decide

/-- Witness for C3 amended: the invalid-link message differs from the
duplicate-device message. -/
theorem rejection_messages_distinct_witness :
    outcomeMessage .invalidLink ≠ outcomeMessage .duplicate :=
  rejection_messages_distinct .invalidLink .duplicate (by decide)

/-- One stored record through the export pipeline: timestamp column formatted,
then projection onto the four non-cid columns. -/
lemma export_row_encodeRow (r : Row) :
    (["timestamp", "slot_key", "name", "email"].filter (· ∈ csvFieldnames)).map
      (fun c => colCell csvFieldnames
        ((csvFieldnames.zip (encodeRow r)).map
          (fun q => if q.1 = "timestamp" then Cell.raw (now_local_str q.2) else q.2)) c) =
      exportRow r := by
  simp [csvFieldnames, encodeRow, colCell, List.lookup, exportRow]

/-- Claim C4 counterexample: for the empty store `df_for_export` returns the
frame unchanged, cid column included — so the projection is not cid-free for
every store state. -/
theorem export_empty_keeps_cid_column :
    df_for_export (read_df .missing).1 = (read_df .missing).1 ∧
    "cid" ∈ (df_for_export (read_df .missing).1).cols :=
  ⟨rfl, by decide⟩

/-- Claim C4 amended: for every non-empty app-written store the export
projection drops the cid column entirely (keeping timestamp, slot_key, name,
email), the serialized XLSX worksheet carries only those four columns, and
every well-formed timestamp is reformatted to the fixed pattern
`%Y-%m-%d %H:%M:%S`; on the empty store the projection is the empty frame
returned unchanged (no record values, hence still no cid value shown). -/
theorem df_for_export_strips_cid (rs : List Row) (h : rs ≠ []) :
    df_for_export (dfOfRows rs) =
      { cols := ["timestamp", "slot_key", "name", "email"], rows := rs.map exportRow } ∧
    "cid" ∉ (df_for_export (dfOfRows rs)).cols ∧
    df_to_xlsx_bytes (dfOfRows rs) =
      ["timestamp", "slot_key", "name", "email"] ::
        rs.map (fun r => [now_local_str r.timestamp, r.slot_key, r.name, r.email]) ∧
    (∀ r ∈ rs, ∀ dt, r.timestamp = .isoTs dt →
      now_local_str r.timestamp = strftimeSeconds dt) := by
  have hne : (rs.map encodeRow).isEmpty = false := by
    cases rs with
    | nil => exact absurd rfl h
    | cons a t => rfl
  have hmain : df_for_export (dfOfRows rs) =
      { cols := ["timestamp", "slot_key", "name", "email"], rows := rs.map exportRow } := by
    simp only [df_for_export, dfOfRows, hne, Bool.false_eq_true, if_false]
    have hcols : (["timestamp", "slot_key", "name", "email"].filter (· ∈ csvFieldnames)) =
        ["timestamp", "slot_key", "name", "email"] := by decide
    refine congrArg₂ Df.mk hcols ?_
    rw [List.map_map, List.map_map]
    refine List.map_congr_left ?_
    intro r _
    exact export_row_encodeRow r
  refine ⟨hmain, ?_, ?_, ?_⟩
  · rw [hmain]
    simp
  · simp only [df_to_xlsx_bytes, hmain]
    simp [exportRow, cellStr, List.map_map, Function.comp]
  · intro r _ dt hdt
    rw [hdt]
    rfl

/-- Witness for C4 amended: on a one-record store the projection holds the
four non-cid columns with the reformatted timestamp. -/
theorem df_for_export_strips_cid_witness :
    df_for_export (dfOfRows [rowAda]) =
      { cols := ["timestamp", "slot_key", "name", "email"],
        rows := [rowAda].map exportRow } :=
  (df_for_export_strips_cid [rowAda] (by decide)).1

end QrAttendance
